import Mathlib

/-!
Shallow embedding of the event/meeting subsystem of the academic-platform
backend (event controller over a Mongo-style store), together with proofs
about its operations: `createEvent`, `scheduleMeeting`, `getUserEvents`,
`updateEvent` and `cancelMeeting`.

Modelling conventions:
* Identifiers (Mongo ObjectIds) are `Nat`; dates are `Int` timestamps.
* The persistence backend is a `Store`: one list of existing ids per
  collaborator collection (users, subjects, grades, assignments) and the
  list of event documents, in insertion order, plus a fresh-id counter.
* A query filter field whose value comes from an optional document field
  is modelled as equality of the two `Option` values.
* `findOne` / `findByIdAndUpdate` / `findByIdAndDelete` act on the first
  matching document (`List.find?`, replace-first, `List.eraseP`).
* Each controller returns an `EResult` mirroring the HTTP response
  (status code plus payload or error message) together with the store
  after the call.
-/

namespace EventApi

/-- An event document, after the mongoose `Event` schema: `name`, `type`
(one of the four event-type strings), optional `description`, required
`date` and `user_id`, optional polymorphic reference `related_id` /
`relatedModel`, optional `time` and `duration`, and the two timestamps. -/
structure Event where
  id : Nat
  name : String
  type : String
  description : Option String
  date : Int
  user_id : Nat
  related_id : Option Nat
  relatedModel : Option String
  time : Option String
  duration : Option Nat
  created_at : Int
  updated_at : Int
deriving Repr, DecidableEq

/-- The persistence backend: ids present in each collaborator collection,
the event documents in insertion order, and the next fresh id. -/
structure Store where
  users : List Nat
  subjects : List Nat
  grades : List Nat
  assignments : List Nat
  events : List Event
  nextId : Nat
deriving Repr, DecidableEq

/-- Outcome of a controller call: a successful JSON response with its HTTP
status, or an error response with its status and message. -/
inductive EResult (α : Type) where
  | ok (status : Nat) (val : α)
  | err (status : Nat) (msg : String)
deriving Repr, DecidableEq

/-- Request body of `POST /events` (`createEvent`). Optional fields are
`Option`; an absent field is `none`. -/
structure CreateBody where
  name : String
  type : String
  description : Option String
  date : Int
  user_id : Nat
  related_id : Option Nat
  relatedModel : Option String
  time : Option String
  duration : Option Nat
deriving Repr, DecidableEq

/-- Outcome of the `switch (relatedModel)` dispatch in `createEvent` and
`updateEvent`: the reference resolves, the model tag is unrecognized, or
the collaborator for the tag has no record for the id. -/
inductive RefCheck where
  | okRef
  | invalidModel
  | refNotFound (kind : String)
deriving Repr, DecidableEq

/-- The `switch (relatedModel)` block: dispatch to the collaborator named
by the tag (`Subject.findById`, `Grade.findById`, `Assignment.findById`,
`User.findById`), with the `default` branch for any other tag. -/
def validateRelated (st : Store) (kind : String) (rid : Nat) : RefCheck :=
  match kind with
  | "Subject" => if st.subjects.contains rid then .okRef else .refNotFound "Subject"
  | "Grade" => if st.grades.contains rid then .okRef else .refNotFound "Grade"
  | "Assignment" => if st.assignments.contains rid then .okRef else .refNotFound "Assignment"
  | "User" => if st.users.contains rid then .okRef else .refNotFound "User"
  | _ => .invalidModel

/-- `new Event({...}).save()` for `createEvent`: build the document from
the body, with a fresh id and both timestamps set, and append it to the
collection. -/
def saveNewEvent (st : Store) (b : CreateBody) (now : Int) : EResult Event × Store :=
  let e : Event :=
    { id := st.nextId, name := b.name, type := b.type, description := b.description,
      date := b.date, user_id := b.user_id, related_id := b.related_id,
      relatedModel := b.relatedModel, time := b.time, duration := b.duration,
      created_at := now, updated_at := now }
  (.ok 201 e, { st with events := st.events ++ [e], nextId := st.nextId + 1 })

/-- `createEvent`: check the owner user exists (else 404), validate the
polymorphic reference when BOTH `related_id` and `relatedModel` were
supplied (`if (related_id && relatedModel)`), then save the new event. -/
def createEvent (st : Store) (b : CreateBody) (now : Int) : EResult Event × Store :=
  if st.users.contains b.user_id then
    match b.related_id, b.relatedModel with
    | some rid, some kind =>
      match validateRelated st kind rid with
      | .okRef => saveNewEvent st b now
      | .invalidModel => (.err 400 "Invalid related model", st)
      | .refNotFound k => (.err 404 (k ++ " not found"), st)
    | _, _ => saveNewEvent st b now
  else (.err 404 "User not found", st)

/-- Request body of `POST /events/meetings` (`scheduleMeeting`).
`duration` carries the destructuring default `duration = 30` when absent. -/
structure MeetingBody where
  name : String
  description : Option String
  date : Int
  time : Option String
  duration : Option Nat
  advisorId : Nat
  studentId : Nat
deriving Repr, DecidableEq

/-- The student-side meeting event built by `scheduleMeeting`: type
`Meeting`, owner `studentId`, reference to the advisor as a `User`. -/
def studentMeetingEvent (st : Store) (b : MeetingBody) (now : Int) : Event :=
  { id := st.nextId, name := b.name, type := "Meeting", description := b.description,
    date := b.date, user_id := b.studentId, related_id := some b.advisorId,
    relatedModel := some "User", time := b.time, duration := some (b.duration.getD 30),
    created_at := now, updated_at := now }

/-- The advisor-side meeting event built by `scheduleMeeting`: type
`Meeting`, owner `advisorId`, reference to the student as a `User`. -/
def advisorMeetingEvent (st : Store) (b : MeetingBody) (now : Int) : Event :=
  { id := st.nextId + 1, name := b.name, type := "Meeting", description := b.description,
    date := b.date, user_id := b.advisorId, related_id := some b.studentId,
    relatedModel := some "User", time := b.time, duration := some (b.duration.getD 30),
    created_at := now, updated_at := now }

/-- `scheduleMeeting`: resolve both participants as Users (`Promise.all` of
the two `findById` calls, advisor reported missing first), build the two
`Meeting` events, then save both with `Promise.all`. The parameters
`studentSaveOk` / `advisorSaveOk` are the fates of the two concurrent
`save()` calls: a save that succeeds appends its document even when the
other save of the pair rejects, in which case `Promise.all` rejects and
the catch block answers 500 — there is no compensating delete in the
code. -/
def scheduleMeeting (st : Store) (b : MeetingBody) (now : Int)
    (studentSaveOk advisorSaveOk : Bool) : EResult (Event × Event) × Store :=
  if st.users.contains b.advisorId then
    if st.users.contains b.studentId then
      let se := studentMeetingEvent st b now
      let ae := advisorMeetingEvent st b now
      let events' := st.events ++ (if studentSaveOk then [se] else [])
        ++ (if advisorSaveOk then [ae] else [])
      let st' := { st with events := events', nextId := st.nextId + 2 }
      if studentSaveOk && advisorSaveOk then (.ok 201 (se, ae), st')
      else (.err 500 "Error scheduling meeting", st')
    else (.err 404 "Student not found", st)
  else (.err 404 "Advisor not found", st)

/-- The `findOne` filter of `cancelMeeting`: a counterpart document has
type `Meeting`, the same `date` and `time` as the primary, `related_id`
equal to the primary's `user_id`, and `user_id` equal to the primary's
`related_id`. -/
def isCounterpart (m c : Event) : Bool :=
  c.type == "Meeting" && c.date == m.date && c.time == m.time
    && c.related_id == some m.user_id && some c.user_id == m.related_id

/-- `cancelMeeting`: load the document at `id` and fail with 404 unless it
exists and has type `Meeting`; `findOne` the counterpart; delete the
primary by id and, when a counterpart was found, delete it by id as well;
answer 200 with `canceledEvents` 2 when a counterpart was found, 1
otherwise. -/
def cancelMeeting (st : Store) (id : Nat) : EResult Nat × Store :=
  match st.events.find? (fun e => e.id == id) with
  | none => (.err 404 "Meeting not found", st)
  | some m =>
    if m.type == "Meeting" then
      match st.events.find? (isCounterpart m) with
      | some c =>
        let events' := (st.events.eraseP (fun e => e.id == id)).eraseP (fun e => e.id == c.id)
        (.ok 200 2, { st with events := events' })
      | none =>
        (.ok 200 1, { st with events := st.events.eraseP (fun e => e.id == id) })
    else (.err 404 "Meeting not found", st)

/-- The Mongo filter built by `getUserEvents`: `user_id = userId`, date in
the past or not-past window around `now`, and, when the `type` query
parameter was given, `type` equal to it. -/
def userEventsFilter (userId : Nat) (typeQ : Option String) (past : Bool) (now : Int)
    (e : Event) : Bool :=
  e.user_id == userId
    && (if past then e.date < now else now ≤ e.date)
    && (match typeQ with | some t => e.type == t | none => true)

/-- `getUserEvents`: check the user exists (else 404), filter the events
by owner, date window and optional type, and sort by date — descending
when `past` is `true`, ascending otherwise. -/
def getUserEvents (st : Store) (userId : Nat) (typeQ : Option String) (past : Bool)
    (now : Int) : EResult (List Event) :=
  if st.users.contains userId then
    let filtered := st.events.filter (userEventsFilter userId typeQ past now)
    let sorted :=
      if past then filtered.insertionSort (fun a b => b.date ≤ a.date)
      else filtered.insertionSort (fun a b => a.date ≤ b.date)
    .ok 200 sorted
  else .err 404 "User not found"

/-- Request body of `PUT /events/:id` (`updateEvent`). The controller
destructures only these eight fields; `user_id` is carried here to show a
supplied owner value is ignored. -/
structure UpdateBody where
  name : Option String
  type : Option String
  description : Option String
  date : Option Int
  related_id : Option Nat
  relatedModel : Option String
  time : Option String
  duration : Option Nat
  user_id : Option Nat
deriving Repr, DecidableEq

/-- The update document of `findByIdAndUpdate`: each supplied field
replaces the stored one, absent fields are stripped from the update and
keep their stored values, and `updated_at` is set to `Date.now()`. The
owner `user_id` is not part of the update document. -/
def applyUpdate (old : Event) (b : UpdateBody) (now : Int) : Event :=
  { id := old.id
    name := b.name.getD old.name
    type := b.type.getD old.type
    description := match b.description with | some d => some d | none => old.description
    date := b.date.getD old.date
    user_id := old.user_id
    related_id := match b.related_id with | some r => some r | none => old.related_id
    relatedModel := match b.relatedModel with | some k => some k | none => old.relatedModel
    time := match b.time with | some t => some t | none => old.time
    duration := match b.duration with | some d => some d | none => old.duration
    created_at := old.created_at
    updated_at := now }

/-- Replace the first document matching `p` by `e` (the single-document
update of `findByIdAndUpdate`). -/
def replaceFirst (p : Event → Bool) (e : Event) : List Event → List Event
  | [] => []
  | x :: xs => if p x then e :: xs else x :: replaceFirst p e xs

/-- `Event.findByIdAndUpdate(id, {...}, { new: true })` followed by the
controller's null check: update the single document with the id and
answer 200 with the updated document, or 404 `Event not found` when no
document has the id. -/
def findByIdAndUpdateEvent (st : Store) (id : Nat) (b : UpdateBody) (now : Int) :
    EResult Event × Store :=
  match st.events.find? (fun e => e.id == id) with
  | none => (.err 404 "Event not found", st)
  | some old =>
    (.ok 200 (applyUpdate old b now),
      { st with events := replaceFirst (fun x => x.id == id) (applyUpdate old b now) st.events })

/-- `updateEvent`: validate the polymorphic reference when BOTH
`related_id` and `relatedModel` were supplied (same gate as
`createEvent`), then `findByIdAndUpdate` with the supplied fields and a
fresh `updated_at`, answering 404 when no document has the id. -/
def updateEvent (st : Store) (id : Nat) (b : UpdateBody) (now : Int) :
    EResult Event × Store :=
  match b.related_id, b.relatedModel with
  | some rid, some kind =>
    match validateRelated st kind rid with
    | .okRef => findByIdAndUpdateEvent st id b now
    | .invalidModel => (.err 400 "Invalid related model", st)
    | .refNotFound k => (.err 404 (k ++ " not found"), st)
  | _, _ => findByIdAndUpdateEvent st id b now

/-- The four model tags the `switch` of the controllers recognizes. -/
def recognizedKinds : List String := ["Subject", "Grade", "Assignment", "User"]

/-- Existence lookup in the collaborator collection named by a recognized
tag; `false` on any other tag. -/
def kindLookup (st : Store) (kind : String) (rid : Nat) : Bool :=
  match kind with
  | "Subject" => st.subjects.contains rid
  | "Grade" => st.grades.contains rid
  | "Assignment" => st.assignments.contains rid
  | "User" => st.users.contains rid
  | _ => false

/-- The dispatch `switch` phrased through the recognized-tag list and the
per-tag lookup. -/
theorem validateRelated_eq (st : Store) (kind : String) (rid : Nat) :
    validateRelated st kind rid =
      (if recognizedKinds.contains kind then
        (if kindLookup st kind rid then RefCheck.okRef else RefCheck.refNotFound kind)
      else RefCheck.invalidModel) := by
  unfold validateRelated
  split
  · simp_all [recognizedKinds, kindLookup]
  · simp_all [recognizedKinds, kindLookup]
  · simp_all [recognizedKinds, kindLookup]
  · simp_all [recognizedKinds, kindLookup]
  · rename_i h1 h2 h3 h4
    simp_all [recognizedKinds, kindLookup]

/-! Concrete fixtures used by witnesses and counterexamples. -/

/-- A store with two users and no events. -/
def stTwoUsers : Store :=
  { users := [1, 2], subjects := [], grades := [], assignments := [], events := [],
    nextId := 10 }

/-- A meeting request between users 1 (advisor) and 2 (student), with no
duration supplied. -/
def mbAdvising : MeetingBody :=
  { name := "Advising", description := none, date := 100, time := some "14:30",
    duration := none, advisorId := 1, studentId := 2 }

/-- A `Meeting` event whose owner and related user coincide (user 7 meets
user 7), as `createEvent` accepts. -/
def selfMeeting : Event :=
  { id := 1, name := "m", type := "Meeting", description := none, date := 7,
    user_id := 7, related_id := some 7, relatedModel := some "User",
    time := some "10:00", duration := some 30, created_at := 0, updated_at := 0 }

/-- A store holding only `selfMeeting`. -/
def stSelfMeeting : Store :=
  { users := [7], subjects := [], grades := [], assignments := [],
    events := [selfMeeting], nextId := 2 }

/-- Primary meeting event of the field-matching example: name `A`,
duration 30, owner 2, related user 3. -/
def primaryMeeting : Event :=
  { id := 1, name := "A", type := "Meeting", description := some "d1", date := 50,
    user_id := 2, related_id := some 3, relatedModel := some "User",
    time := some "09:00", duration := some 30, created_at := 0, updated_at := 0 }

/-- A record agreeing with `primaryMeeting` on type, date, time and the
swapped owner/related pair, but with a different name and duration and no
`relatedModel`. -/
def oddCounterpart : Event :=
  { id := 2, name := "B", type := "Meeting", description := none, date := 50,
    user_id := 3, related_id := some 2, relatedModel := none,
    time := some "09:00", duration := some 45, created_at := 0, updated_at := 0 }

/-- A store holding `primaryMeeting` and `oddCounterpart`. -/
def stOddPair : Store :=
  { users := [2, 3], subjects := [], grades := [], assignments := [],
    events := [primaryMeeting, oddCounterpart], nextId := 3 }

/-- A create request supplying `related_id` without `relatedModel`. -/
def cbHalfRef : CreateBody :=
  { name := "e", type := "Reminder", description := none, date := 5, user_id := 1,
    related_id := some 5, relatedModel := none, time := none, duration := none }

/-- The event `createEvent stTwoUsers cbHalfRef 0` stores. -/
def evHalfRef : Event :=
  { id := 10, name := "e", type := "Reminder", description := none, date := 5,
    user_id := 1, related_id := some 5, relatedModel := none, time := none,
    duration := none, created_at := 0, updated_at := 0 }

/-! Theorems for the claims. -/

/-- C1: the claim says a partial failure of the two meeting writes is
followed by a compensating delete, so a non-success return of
`scheduleMeeting` leaves zero Meeting records from the call. In the code
the two `save()` calls are only awaited through `Promise.all` and the
catch block answers 500 without deleting anything: when the student-side
save succeeds and the advisor-side save fails, the call does not return
success yet exactly one Meeting record from the call stays in the
(initially event-free) store. -/
theorem scheduleMeeting_lone_write_survives_failure :
    (scheduleMeeting stTwoUsers mbAdvising 0 true false).1
        = .err 500 "Error scheduling meeting" ∧
    ((scheduleMeeting stTwoUsers mbAdvising 0 true false).2.events.filter
        (fun e => e.type == "Meeting")).length = 1 := by
  constructor
  · rfl
  · rfl

/-- C9: the counterpart query of `cancelMeeting` matches only type, date,
time and the swapped owner/related pair: a stored record differing from
the primary in name and duration and lacking `relatedModel = User` is
still selected and deleted as the counterpart, leaving the store empty
and reporting 2 canceled events. -/
theorem cancelMeeting_matches_five_fields_only :
    oddCounterpart.name ≠ primaryMeeting.name ∧
    oddCounterpart.duration ≠ primaryMeeting.duration ∧
    oddCounterpart.relatedModel ≠ some "User" ∧
    isCounterpart primaryMeeting oddCounterpart = true ∧
    (cancelMeeting stOddPair 1).1 = .ok 200 2 ∧
    (cancelMeeting stOddPair 1).2.events = [] := by
  refine ⟨by decide, by decide, by decide, by decide, rfl, rfl⟩

/-- C3 counterexample: on a `Meeting` record whose owner equals its
related user, the counterpart query matches the record itself, so the two
deletes hit the same id: the call reports `canceledEvents = 2` although
only one record existed and only one record is deleted — the claim's
"exactly 2 records are deleted" fails. -/
theorem cancelMeeting_self_pair_counterexample :
    stSelfMeeting.events.find? (fun e => e.id == 1) = some selfMeeting ∧
    selfMeeting.type = "Meeting" ∧
    isCounterpart selfMeeting selfMeeting = true ∧
    selfMeeting ∈ stSelfMeeting.events ∧
    (cancelMeeting stSelfMeeting 1).1 = .ok 200 2 ∧
    stSelfMeeting.events.length = 1 ∧
    (cancelMeeting stSelfMeeting 1).2.events.length = 0 ∧
    ¬ ((cancelMeeting stSelfMeeting 1).2.events.length + 2
        = stSelfMeeting.events.length) := by
  refine ⟨rfl, rfl, by decide, by decide, rfl, rfl, rfl, by decide⟩

/-- C5 counterexample: `createEvent` only validates the polymorphic
reference when both `related_id` and `relatedModel` are supplied; a
request carrying `related_id` alone is saved unvalidated, so the stored
record has `relatedId` present and `relatedKind` absent, breaking the
claimed "present iff present" half of I1. -/
theorem createEvent_half_reference_counterexample :
    (createEvent stTwoUsers cbHalfRef 0).1 = .ok 201 evHalfRef ∧
    evHalfRef ∈ (createEvent stTwoUsers cbHalfRef 0).2.events ∧
    evHalfRef.related_id.isSome = true ∧
    evHalfRef.relatedModel = none := by
  refine ⟨rfl, by decide, rfl, rfl⟩

/-- C2: when both participants resolve to existing Users and both saves
succeed, `scheduleMeeting` answers 201 with the two records, appends
exactly those two records to the store, and the records are both
`Meeting`-typed, share name, description, date, time and duration (the
duration defaulting to 30 when the body omits it), carry swapped
owner/related ids, and both reference the other participant as a
`User`. -/
theorem scheduleMeeting_success_spec (st : Store) (b : MeetingBody) (now : Int)
    (hA : b.advisorId ∈ st.users) (hS : b.studentId ∈ st.users) :
    ∃ se ae st',
      scheduleMeeting st b now true true = (.ok 201 (se, ae), st') ∧
      st'.events = st.events ++ [se, ae] ∧
      se.type = "Meeting" ∧ ae.type = "Meeting" ∧
      se.name = b.name ∧ ae.name = b.name ∧
      se.description = b.description ∧ ae.description = b.description ∧
      se.date = b.date ∧ ae.date = b.date ∧
      se.time = b.time ∧ ae.time = b.time ∧
      se.duration = some (b.duration.getD 30) ∧
      ae.duration = some (b.duration.getD 30) ∧
      se.user_id = b.studentId ∧ se.related_id = some b.advisorId ∧
      ae.user_id = b.advisorId ∧ ae.related_id = some b.studentId ∧
      se.relatedModel = some "User" ∧ ae.relatedModel = some "User" := by
  refine ⟨studentMeetingEvent st b now, advisorMeetingEvent st b now,
    { st with events := st.events ++ [studentMeetingEvent st b now]
        ++ [advisorMeetingEvent st b now], nextId := st.nextId + 2 }, ?_, by simp,
    rfl, rfl, rfl, rfl, rfl, rfl, rfl, rfl, rfl, rfl, rfl, rfl, rfl, rfl, rfl,
    rfl, rfl, rfl⟩
  simp [scheduleMeeting, hA, hS]

/-- C2 witness at the concrete advisor-student pair of `stTwoUsers`. -/
theorem scheduleMeeting_success_spec_witness :
    ∃ se ae st',
      scheduleMeeting stTwoUsers mbAdvising 0 true true = (.ok 201 (se, ae), st') ∧
      st'.events = stTwoUsers.events ++ [se, ae] ∧
      se.type = "Meeting" ∧ ae.type = "Meeting" ∧
      se.name = mbAdvising.name ∧ ae.name = mbAdvising.name ∧
      se.description = mbAdvising.description ∧ ae.description = mbAdvising.description ∧
      se.date = mbAdvising.date ∧ ae.date = mbAdvising.date ∧
      se.time = mbAdvising.time ∧ ae.time = mbAdvising.time ∧
      se.duration = some (mbAdvising.duration.getD 30) ∧
      ae.duration = some (mbAdvising.duration.getD 30) ∧
      se.user_id = mbAdvising.studentId ∧ se.related_id = some mbAdvising.advisorId ∧
      ae.user_id = mbAdvising.advisorId ∧ ae.related_id = some mbAdvising.studentId ∧
      se.relatedModel = some "User" ∧ ae.relatedModel = some "User" :=
  scheduleMeeting_success_spec stTwoUsers mbAdvising 0 (by decide) (by decide)

/-- C7: when the advisor id does not resolve to a User, `scheduleMeeting`
answers 404 `Advisor not found` and leaves the store unchanged; when the
advisor resolves but the student id does not, it answers 404
`Student not found` and leaves the store unchanged — in both cases no
record is written, whatever the fates of the (never reached) saves. -/
theorem scheduleMeeting_missing_user (st : Store) (b : MeetingBody) (now : Int)
    (sOk aOk : Bool) :
    (b.advisorId ∉ st.users →
      scheduleMeeting st b now sOk aOk = (.err 404 "Advisor not found", st)) ∧
    (b.advisorId ∈ st.users → b.studentId ∉ st.users →
      scheduleMeeting st b now sOk aOk = (.err 404 "Student not found", st)) := by
  constructor
  · intro h
    simp [scheduleMeeting, h]
  · intro hA hS
    simp [scheduleMeeting, hA, hS]

/-- C7 witness: user 5 is no advisor of `stTwoUsers`, and with advisor 1
present user 5 is no student either. -/
theorem scheduleMeeting_missing_user_witness :
    scheduleMeeting stTwoUsers
        { mbAdvising with advisorId := 5 } 0 true true
      = (.err 404 "Advisor not found", stTwoUsers) ∧
    scheduleMeeting stTwoUsers
        { mbAdvising with studentId := 5 } 0 true true
      = (.err 404 "Student not found", stTwoUsers) :=
  ⟨(scheduleMeeting_missing_user stTwoUsers { mbAdvising with advisorId := 5 } 0
      true true).1 (by decide),
   (scheduleMeeting_missing_user stTwoUsers { mbAdvising with studentId := 5 } 0
      true true).2 (by decide) (by decide)⟩

/-- C4: when no stored record has the requested id, or the record found
is not `Meeting`-typed, `cancelMeeting` answers 404 `Meeting not found`
and leaves the store unchanged; in particular this is the answer when the
pair was already fully canceled, since then the id matches no record. -/
theorem cancelMeeting_not_found (st : Store) (id : Nat)
    (h : ∀ m, st.events.find? (fun e => e.id == id) = some m → m.type ≠ "Meeting") :
    cancelMeeting st id = (.err 404 "Meeting not found", st) := by
  unfold cancelMeeting
  cases hf : st.events.find? (fun e => e.id == id) with
  | none => rfl
  | some m =>
    have : (m.type == "Meeting") = false := by
      simpa using h m hf
    simp [this]

/-- C4 witness: canceling id 3 (absent) and id 1 (a non-Meeting record)
both answer 404 and change nothing; canceling again after a full cancel
answers 404. -/
theorem cancelMeeting_not_found_witness :
    cancelMeeting stOddPair 7 = (.err 404 "Meeting not found", stOddPair) ∧
    cancelMeeting (createEvent stTwoUsers cbHalfRef 0).2 10
      = (.err 404 "Meeting not found", (createEvent stTwoUsers cbHalfRef 0).2) ∧
    cancelMeeting (cancelMeeting stOddPair 1).2 1
      = (.err 404 "Meeting not found", (cancelMeeting stOddPair 1).2) :=
  ⟨cancelMeeting_not_found stOddPair 7 (by decide),
   cancelMeeting_not_found (createEvent stTwoUsers cbHalfRef 0).2 10 (by decide),
   cancelMeeting_not_found (cancelMeeting stOddPair 1).2 1 (by decide)⟩

/-- A dispatch that resolves found its record: the recognized-tag lookup
succeeded. -/
theorem kindLookup_of_okRef (st : Store) (kind : String) (rid : Nat)
    (h : validateRelated st kind rid = .okRef) : kindLookup st kind rid = true := by
  rw [validateRelated_eq] at h
  by_cases h1 : recognizedKinds.contains kind = true
  · rw [if_pos h1] at h
    by_cases h2 : kindLookup st kind rid = true
    · exact h2
    · rw [if_neg h2] at h
      cases h
  · rw [if_neg h1] at h
    cases h

/-- C5 (amended): when a create or update supplies BOTH `related_id` and
`relatedModel`, the successfully stored record carries exactly that pair
and the referenced record of that kind existed in the pre-call store;
when a create supplies neither, the stored record has neither. (Requests
supplying exactly one of the two skip validation, so the
present-iff-present half of I1 does not hold in general — see the
counterexample.) -/
theorem relatedPair_validation_amended :
    (∀ st b now rid kind e st', b.related_id = some rid →
      b.relatedModel = some kind → createEvent st b now = (.ok 201 e, st') →
      e.related_id = some rid ∧ e.relatedModel = some kind ∧
        kindLookup st kind rid = true) ∧
    (∀ st b now e st', b.related_id = none → b.relatedModel = none →
      createEvent st b now = (.ok 201 e, st') →
      e.related_id = none ∧ e.relatedModel = none) ∧
    (∀ st id b now rid kind e st', b.related_id = some rid →
      b.relatedModel = some kind → updateEvent st id b now = (.ok 200 e, st') →
      e.related_id = some rid ∧ e.relatedModel = some kind ∧
        kindLookup st kind rid = true) := by
  refine ⟨?_, ?_, ?_⟩
  · intro st b now rid kind e st' hr hk hok
    unfold createEvent at hok
    rw [hr, hk] at hok
    by_cases hu : st.users.contains b.user_id = true
    · simp only [hu, if_true] at hok
      cases hv : validateRelated st kind rid
      all_goals simp only [hv] at hok
      · simp only [saveNewEvent, Prod.mk.injEq, EResult.ok.injEq] at hok
        refine ⟨?_, ?_, kindLookup_of_okRef st kind rid hv⟩
        · rw [← hok.1.2, hr]
        · rw [← hok.1.2, hk]
      · simp at hok
      · simp at hok
    · simp only [Bool.not_eq_true] at hu
      simp only [hu, Bool.false_eq_true, if_false] at hok
      simp at hok
  · intro st b now e st' hr hk hok
    unfold createEvent at hok
    rw [hr, hk] at hok
    by_cases hu : st.users.contains b.user_id = true
    · simp only [hu, if_true] at hok
      simp only [saveNewEvent, Prod.mk.injEq, EResult.ok.injEq] at hok
      constructor
      · rw [← hok.1.2, hr]
      · rw [← hok.1.2, hk]
    · simp only [Bool.not_eq_true] at hu
      simp only [hu, Bool.false_eq_true, if_false] at hok
      simp at hok
  · intro st id b now rid kind e st' hr hk hok
    unfold updateEvent at hok
    rw [hr, hk] at hok
    cases hv : validateRelated st kind rid
    all_goals simp only [hv] at hok
    · unfold findByIdAndUpdateEvent at hok
      cases hf : st.events.find? (fun x => x.id == id) with
      | none => simp only [hf] at hok; simp at hok
      | some old =>
        simp only [hf, Prod.mk.injEq, EResult.ok.injEq] at hok
        refine ⟨?_, ?_, kindLookup_of_okRef st kind rid hv⟩
        · rw [← hok.1.2]
          simp [applyUpdate, hr]
        · rw [← hok.1.2]
          simp [applyUpdate, hk]
    · simp at hok
    · simp at hok

/-- A create request supplying the full reference pair: user 2 as a
`User`-kind related record. -/
def cbFullRef : CreateBody :=
  { name := "e", type := "Reminder", description := none, date := 5, user_id := 1,
    related_id := some 2, relatedModel := some "User", time := none,
    duration := none }

/-- The event `createEvent stTwoUsers cbFullRef 0` stores. -/
def evFullRef : Event :=
  { id := 10, name := "e", type := "Reminder", description := none, date := 5,
    user_id := 1, related_id := some 2, relatedModel := some "User", time := none,
    duration := none, created_at := 0, updated_at := 0 }

/-- C5 witness: the amended theorem applied to the concrete create of
`cbFullRef` against `stTwoUsers`. -/
theorem relatedPair_validation_amended_witness :
    evFullRef.related_id = some 2 ∧ evFullRef.relatedModel = some "User" ∧
    kindLookup stTwoUsers "User" 2 = true :=
  relatedPair_validation_amended.1 stTwoUsers cbFullRef 0 2 "User" evFullRef
    { stTwoUsers with events := [evFullRef], nextId := 11 } rfl rfl (by decide)

/-- C6: on a create request whose owner resolves and which supplies the
reference pair, an unrecognized model tag is answered with 400
`Invalid related model`, and a recognized tag whose collaborator has no
record for the id is answered with 404 naming the tag; in both cases the
store is returned unchanged — no event is persisted. -/
theorem createEvent_related_failures (st : Store) (b : CreateBody) (now : Int)
    (rid : Nat) (kind : String) (hu : b.user_id ∈ st.users)
    (hr : b.related_id = some rid) (hk : b.relatedModel = some kind) :
    (recognizedKinds.contains kind = false →
      createEvent st b now = (.err 400 "Invalid related model", st)) ∧
    (recognizedKinds.contains kind = true → kindLookup st kind rid = false →
      createEvent st b now = (.err 404 (kind ++ " not found"), st)) := by
  have hu' : st.users.contains b.user_id = true := by simpa using hu
  constructor
  · intro h
    have hv : validateRelated st kind rid = .invalidModel := by
      rw [validateRelated_eq, h]
      simp
    unfold createEvent
    rw [hr, hk]
    simp only [hu', if_true, hv]
  · intro h1 h2
    have hv : validateRelated st kind rid = .refNotFound kind := by
      rw [validateRelated_eq, h1, h2]
      simp
    unfold createEvent
    rw [hr, hk]
    simp only [hu', if_true, hv]

/-- C6 witness: against `stTwoUsers` (no subjects), a create by user 1
with the unrecognized tag `Planet` answers 400, and one with tag
`Subject` and the absent subject id 5 answers 404 `Subject not found`;
both leave the store as it was. -/
theorem createEvent_related_failures_witness :
    createEvent stTwoUsers
        { cbHalfRef with relatedModel := some "Planet" } 0
      = (.err 400 "Invalid related model", stTwoUsers) ∧
    createEvent stTwoUsers
        { cbHalfRef with relatedModel := some "Subject" } 0
      = (.err 404 "Subject not found", stTwoUsers) :=
  ⟨(createEvent_related_failures stTwoUsers
      { cbHalfRef with relatedModel := some "Planet" } 0 5 "Planet" (by decide)
      rfl rfl).1 (by decide),
   (createEvent_related_failures stTwoUsers
      { cbHalfRef with relatedModel := some "Subject" } 0 5 "Subject" (by decide)
      rfl rfl).2 (by decide) (by decide)⟩

/-- Replacing the first `p`-match of a list by a document that agrees
with it under `f` does not change the `f`-image of the list. -/
theorem replaceFirst_map_eq {β : Type} (f : Event → β) (p : Event → Bool)
    (e' : Event) (l : List Event) (old : Event)
    (hf : l.find? p = some old) (hid : f e' = f old) :
    (replaceFirst p e' l).map f = l.map f := by
  induction l with
  | nil => cases hf
  | cons x xs ih =>
    by_cases hp : p x = true
    · rw [List.find?_cons_of_pos _ hp] at hf
      have hx : old = x := by
        cases hf
        rfl
      simp [replaceFirst, hp, hid, hx]
    · have hp' : p x = false := by simpa using hp
      rw [List.find?_cons_of_neg _ (by simpa using hp)] at hf
      simp [replaceFirst, hp', ih hf]

/-- A successful `findByIdAndUpdate` preserves every document's owner:
the returned document keeps the owner of the stored one, and the
(id, owner) image of the collection is unchanged. -/
theorem findByIdAndUpdateEvent_owner (st : Store) (id : Nat) (b : UpdateBody)
    (now : Int) (e : Event) (st' : Store)
    (h : findByIdAndUpdateEvent st id b now = (.ok 200 e, st')) :
    st'.events.map (fun x => (x.id, x.user_id))
        = st.events.map (fun x => (x.id, x.user_id)) ∧
    ∃ old, st.events.find? (fun x => x.id == id) = some old ∧
      e.user_id = old.user_id := by
  unfold findByIdAndUpdateEvent at h
  cases hf : st.events.find? (fun x => x.id == id) with
  | none =>
    simp only [hf] at h
    simp at h
  | some old =>
    simp only [hf, Prod.mk.injEq, EResult.ok.injEq] at h
    refine ⟨?_, old, rfl, ?_⟩
    · rw [← h.2]
      exact replaceFirst_map_eq _ _ _ _ old hf rfl
    · rw [← h.1.2]
      rfl

/-- C10: a successful `updateEvent` never changes any stored owner — the
request body does not carry `user_id` into the update document even when
it supplies one — so the updated document keeps the owner of the record
found at the id, and the (id, owner) image of the whole collection is
unchanged. -/
theorem updateEvent_preserves_owner (st : Store) (id : Nat) (b : UpdateBody)
    (now : Int) (e : Event) (st' : Store)
    (h : updateEvent st id b now = (.ok 200 e, st')) :
    st'.events.map (fun x => (x.id, x.user_id))
        = st.events.map (fun x => (x.id, x.user_id)) ∧
    ∃ old, st.events.find? (fun x => x.id == id) = some old ∧
      e.user_id = old.user_id := by
  unfold updateEvent at h
  rcases hbr : b.related_id with _ | rid
  all_goals rcases hbk : b.relatedModel with _ | kind
  all_goals simp only [hbr, hbk] at h
  · exact findByIdAndUpdateEvent_owner st id b now e st' h
  · exact findByIdAndUpdateEvent_owner st id b now e st' h
  · exact findByIdAndUpdateEvent_owner st id b now e st' h
  · cases hv : validateRelated st kind rid
    all_goals simp only [hv] at h
    · exact findByIdAndUpdateEvent_owner st id b now e st' h
    · simp at h
    · simp at h

/-- The body of the C10 witness update: it renames the event, moves its
date, and supplies a new owner value 99 that the controller ignores. -/
def ubOwner : UpdateBody :=
  { name := some "renamed", type := none, description := none, date := some 8,
    related_id := none, relatedModel := none, time := none, duration := none,
    user_id := some 99 }

/-- The document stored by the C10 witness update. -/
def evOwnerUpdated : Event :=
  { id := 10, name := "renamed", type := "Reminder", description := none,
    date := 8, user_id := 1, related_id := some 5, relatedModel := none,
    time := none, duration := none, created_at := 0, updated_at := 3 }

/-- C10 witness: updating the stored event of `cbHalfRef` with a body
that supplies owner 99 keeps owner 1 on the document and leaves the
(id, owner) image of the store unchanged. -/
theorem updateEvent_preserves_owner_witness :
    ({ (createEvent stTwoUsers cbHalfRef 0).2 with
        events := [evOwnerUpdated] } : Store).events.map (fun x => (x.id, x.user_id))
      = (createEvent stTwoUsers cbHalfRef 0).2.events.map (fun x => (x.id, x.user_id)) ∧
    ∃ old, (createEvent stTwoUsers cbHalfRef 0).2.events.find? (fun x => x.id == 10)
        = some old ∧ evOwnerUpdated.user_id = old.user_id :=
  updateEvent_preserves_owner (createEvent stTwoUsers cbHalfRef 0).2 10 ubOwner 3
    evOwnerUpdated
    { (createEvent stTwoUsers cbHalfRef 0).2 with events := [evOwnerUpdated] }
    (by decide)

/-- C8: for an existing user, `getUserEvents` answers 200 with a
permutation of exactly the stored events passing the owner / date-window
/ optional-type filter, sorted descending by date when `past` is true and
ascending otherwise. -/
theorem getUserEvents_spec (st : Store) (userId : Nat) (typeQ : Option String)
    (past : Bool) (now : Int) (hu : userId ∈ st.users) :
    ∃ l, getUserEvents st userId typeQ past now = .ok 200 l ∧
      l.Perm (st.events.filter (userEventsFilter userId typeQ past now)) ∧
      (past = true → l.Sorted (fun a b => b.date ≤ a.date)) ∧
      (past = false → l.Sorted (fun a b => a.date ≤ b.date)) := by
  have hu' : st.users.contains userId = true := by simpa using hu
  unfold getUserEvents
  simp only [hu', if_true]
  cases past with
  | false =>
    refine ⟨_, rfl, List.perm_insertionSort _ _, fun h => Bool.noConfusion h, fun _ => ?_⟩
    haveI : IsTotal Event (fun a b => a.date ≤ b.date) :=
      ⟨fun a b => le_total a.date b.date⟩
    haveI : IsTrans Event (fun a b => a.date ≤ b.date) :=
      ⟨fun a b c hab hbc => le_trans hab hbc⟩
    exact List.sorted_insertionSort _ _
  | true =>
    refine ⟨_, rfl, List.perm_insertionSort _ _, fun _ => ?_, fun h => Bool.noConfusion h⟩
    haveI : IsTotal Event (fun a b => b.date ≤ a.date) :=
      ⟨fun a b => le_total b.date a.date⟩
    haveI : IsTrans Event (fun a b => b.date ≤ a.date) :=
      ⟨fun a b c hab hbc => le_trans hbc hab⟩
    exact List.sorted_insertionSort _ _

/-- A calendar store for user 1: three of their events around `now = 0`
(dates 5, -3 and 9), one event of user 2, and one more past event of
user 1 (date -1). -/
def stCalendar : Store :=
  { users := [1, 2], subjects := [], grades := [], assignments := [],
    events :=
      [ { id := 1, name := "a", type := "Reminder", description := none, date := 5,
          user_id := 1, related_id := none, relatedModel := none, time := none,
          duration := none, created_at := 0, updated_at := 0 },
        { id := 2, name := "b", type := "Exam", description := none, date := -3,
          user_id := 1, related_id := none, relatedModel := none, time := none,
          duration := none, created_at := 0, updated_at := 0 },
        { id := 3, name := "c", type := "Reminder", description := none, date := 9,
          user_id := 1, related_id := none, relatedModel := none, time := none,
          duration := none, created_at := 0, updated_at := 0 },
        { id := 4, name := "d", type := "Reminder", description := none, date := 6,
          user_id := 2, related_id := none, relatedModel := none, time := none,
          duration := none, created_at := 0, updated_at := 0 },
        { id := 5, name := "e", type := "Reminder", description := none, date := -1,
          user_id := 1, related_id := none, relatedModel := none, time := none,
          duration := none, created_at := 0, updated_at := 0 } ],
    nextId := 6 }

/-- C8 witness: the past listing of user 1 in `stCalendar`. -/
theorem getUserEvents_spec_witness :
    ∃ l, getUserEvents stCalendar 1 none true 0 = .ok 200 l ∧
      l.Perm (stCalendar.events.filter (userEventsFilter 1 none true 0)) ∧
      (true = true → l.Sorted (fun a b => b.date ≤ a.date)) ∧
      (true = false → l.Sorted (fun a b => a.date ≤ b.date)) :=
  getUserEvents_spec stCalendar 1 none true 0 (by decide)

/-- The first `p`-match of a list survives erasure of the first
`q`-match when the two found elements differ as values. -/
theorem mem_eraseP_of_find? (p : Event → Bool) (l : List Event) (m c : Event)
    (hf : l.find? p = some m) (hc : c ∈ l) (hne : c ≠ m) : c ∈ l.eraseP p := by
  induction l with
  | nil => cases hf
  | cons x xs ih =>
    by_cases hp : p x = true
    · rw [List.find?_cons_of_pos _ hp] at hf
      have hx : m = x := by
        cases hf
        rfl
      rw [List.eraseP_cons_of_pos hp]
      rcases List.mem_cons.mp hc with h | h
      · exact absurd (h.trans hx.symm) hne
      · exact h
    · rw [List.find?_cons_of_neg _ (by simpa using hp)] at hf
      rw [List.eraseP_cons_of_neg hp]
      rcases List.mem_cons.mp hc with h | h
      · exact h ▸ List.mem_cons_self x (xs.eraseP p)
      · exact List.mem_cons_of_mem x (ih hf h)

/-- C3 (amended): on a `Meeting` record whose `related_id` differs from
its own owner (so the record cannot match its own counterpart query),
`cancelMeeting` deletes exactly 2 records and reports 2 canceled events
when some stored record matches the counterpart query, and deletes
exactly 1 record and reports 1 canceled event — not an error — when none
does. -/
theorem cancelMeeting_pair_counts (st : Store) (id : Nat) (m : Event)
    (hm : st.events.find? (fun e => e.id == id) = some m)
    (hMeet : m.type = "Meeting")
    (hne : m.related_id ≠ some m.user_id) :
    ((∃ c ∈ st.events, isCounterpart m c = true) →
      (cancelMeeting st id).1 = .ok 200 2 ∧
      (cancelMeeting st id).2.events.length + 2 = st.events.length) ∧
    ((¬ ∃ c ∈ st.events, isCounterpart m c = true) →
      (cancelMeeting st id).1 = .ok 200 1 ∧
      (cancelMeeting st id).2.events.length + 1 = st.events.length) := by
  have hm1 : m ∈ st.events := List.mem_of_find?_eq_some hm
  have hp1 := List.find?_some hm
  have hMeet' : (m.type == "Meeting") = true := by simpa using hMeet
  have hlen1 : (st.events.eraseP (fun e => e.id == id)).length
      = st.events.length - 1 :=
    List.length_eraseP_of_mem hm1 hp1
  have hpos : 0 < st.events.length := List.length_pos_of_mem hm1
  unfold cancelMeeting
  simp only [hm, hMeet', if_true]
  constructor
  · intro hex
    have hsome : (st.events.find? (isCounterpart m)).isSome = true :=
      List.find?_isSome.mpr hex
    cases hc : st.events.find? (isCounterpart m) with
    | none =>
      rw [hc] at hsome
      cases hsome
    | some c =>
      simp only [hc]
      have hcm : c ∈ st.events := List.mem_of_find?_eq_some hc
      have hcp : isCounterpart m c = true := List.find?_some hc
      have hlast : m.related_id = some c.user_id := by
        have h5 := hcp
        simp only [isCounterpart, Bool.and_eq_true, beq_iff_eq] at h5
        exact h5.2.symm
      have hcnem : c ≠ m := by
        intro h
        rw [h] at hlast
        exact hne hlast
      have hcm1 : c ∈ st.events.eraseP (fun e => e.id == id) :=
        mem_eraseP_of_find? _ _ m c hm hcm hcnem
      have hlen2 : ((st.events.eraseP (fun e => e.id == id)).eraseP
            (fun e => e.id == c.id)).length
          = (st.events.eraseP (fun e => e.id == id)).length - 1 :=
        List.length_eraseP_of_mem hcm1 (by simp)
      have hpos2 : 0 < (st.events.eraseP (fun e => e.id == id)).length :=
        List.length_pos_of_mem hcm1
      refine ⟨by simp, ?_⟩
      show ((st.events.eraseP (fun e => e.id == id)).eraseP
          (fun e => e.id == c.id)).length + 2 = st.events.length
      omega
  · intro hnex
    have hc : st.events.find? (isCounterpart m) = none := by
      rw [List.find?_eq_none]
      intro x hx hpx
      exact hnex ⟨x, hx, hpx⟩
    simp only [hc]
    refine ⟨by simp, ?_⟩
    show (st.events.eraseP (fun e => e.id == id)).length + 1 = st.events.length
    omega

/-- A store holding only `primaryMeeting`, its counterpart already gone. -/
def stLonePrimary : Store :=
  { users := [2, 3], subjects := [], grades := [], assignments := [],
    events := [primaryMeeting], nextId := 2 }

/-- C3 witness: canceling `primaryMeeting` in `stOddPair` (counterpart
present) removes 2 of the 2 records; canceling it in `stLonePrimary`
(counterpart gone) removes 1 of the 1 record. -/
theorem cancelMeeting_pair_counts_witness :
    ((cancelMeeting stOddPair 1).1 = .ok 200 2 ∧
      (cancelMeeting stOddPair 1).2.events.length + 2 = stOddPair.events.length) ∧
    ((cancelMeeting stLonePrimary 1).1 = .ok 200 1 ∧
      (cancelMeeting stLonePrimary 1).2.events.length + 1
        = stLonePrimary.events.length) :=
  ⟨(cancelMeeting_pair_counts stOddPair 1 primaryMeeting (by decide) rfl
      (by decide)).1 (by decide),
   (cancelMeeting_pair_counts stLonePrimary 1 primaryMeeting (by decide) rfl
      (by decide)).2 (by decide)⟩

end EventApi
